import Mathlib

/-!
Shallow embedding of the vision-text-extractor repository.

The embedded functions follow the Python source:
* `src/additions/additions_1_opencv.py` — `preprocess_image`
* `src/agent/tools.py` — `extract_text`
* `src/main.py` — `create_graph` / `assistant`, `cleanup_temp_file`,
  `get_llm_with_tools`

External library calls (OpenCV resampling kernels, the vision model, the
filesystem, `cv2.minAreaRect`, trigonometry of the rotation matrix) are
passed in as function arguments, so each theorem quantifies over the
external collaborator's behaviour exactly where the source delegates to it.
Pixel values are 8-bit and modelled as `Nat`; exact-rational arithmetic
replaces the library's floating point where the formulas are rational.
-/

namespace VTE

/-- An in-memory decoded raster image, as produced by `cv2.imread`:
`h × w` pixels, `c` channels, `px row col channel` an 8-bit value.
`cv2.imread` with default flags always decodes to 3 channels (BGR). -/
structure Img where
  h : Nat
  w : Nat
  c : Nat
  px : Nat → Nat → Nat → Nat

/-- OpenCV `cv2.resize(img, None, fx=fx, fy=fy, interpolation=cv2.INTER_CUBIC)`:
the output size is the rounded scaling of the input size (OpenCV rounds
`fx*cols` and `fy*rows` to the nearest integer); the resampled pixel
content is computed by the external library's cubic interpolation kernel,
abstracted here as `resamplePx`. -/
def resize (resamplePx : Img → ℚ → ℚ → Nat → Nat → Nat → Nat)
    (img : Img) (fx fy : ℚ) : Img :=
  ⟨(round (fy * img.h)).toNat, (round (fx * img.w)).toNat, img.c,
    resamplePx img fx fy⟩

/-- The upscaling step of `preprocess_image`:
`if target_width is not None and img.shape[1] < target_width:` rescale by
`scale = target_width / img.shape[1]` on both axes with cubic
interpolation. -/
def upscale (resamplePx : Img → ℚ → ℚ → Nat → Nat → Nat → Nat)
    (img : Img) (target_width : Option Nat) : Img :=
  match target_width with
  | none => img
  | some tw =>
    if img.w < tw then
      let scale : ℚ := (tw : ℚ) / (img.w : ℚ)
      resize resamplePx img scale scale
    else img

/-- OpenCV `cv2.cvtColor(img, cv2.COLOR_BGR2GRAY)` for 8-bit images: OpenCV's
fixed-point formula `(B*1868 + G*9617 + R*4899 + 2^13) >> 14`
(the coefficients sum to `2^14`); channels are ordered B, G, R. -/
def cvtColorBGR2GRAY (img : Img) : Img :=
  ⟨img.h, img.w, 1, fun y x _ =>
    (1868 * img.px y x 0 + 9617 * img.px y x 1 + 4899 * img.px y x 2 + 8192)
      / 16384⟩

/-- OpenCV `cv2.bitwise_not` on an 8-bit single-channel image: `255 - v`. -/
def bitwise_not (img : Img) : Img :=
  ⟨img.h, img.w, img.c, fun y x k => 255 - img.px y x k⟩

/-- OpenCV `cv2.bilateralFilter(gray, 7, 50, 50)`: size and channel count are
preserved; the Gaussian-weighted content is the external library's
(transcendental weights), abstracted as `bilateralPx`. -/
def bilateralFilter (bilateralPx : Img → Nat → Nat → Nat → Nat)
    (img : Img) : Img :=
  ⟨img.h, img.w, 1, bilateralPx img⟩

/-- OpenCV `cv2.adaptiveThreshold(gray, 255, ADAPTIVE_THRESH_GAUSSIAN_C,
THRESH_BINARY, 31, 10)`: size is preserved and the output is
single-channel; the Gaussian-window content is the external library's,
abstracted as `adaptivePx`. -/
def adaptiveThreshold (adaptivePx : Img → Nat → Nat → Nat → Nat)
    (img : Img) : Img :=
  ⟨img.h, img.w, 1, adaptivePx img⟩

/-- The in-range pixel values of a single-channel image in row-major
order (the histogram input of Otsu's method). -/
def pixelList (img : Img) : List Nat :=
  (List.range img.h).flatMap fun y =>
    (List.range img.w).map fun x => img.px y x 0

/-- Histogram count of value `i` in a list of pixel values. -/
def histCount (vals : List Nat) (i : Nat) : Nat :=
  vals.countP (fun v => v = i)

/-- Fold state of OpenCV's `getThreshVal_Otsu_8u` loop. -/
structure OtsuSt where
  q1 : ℚ
  mu1 : ℚ
  maxSigma : ℚ
  maxVal : Nat

/-- Otsu's automatic threshold, following OpenCV's
`getThreshVal_Otsu_8u`: iterate `i = 0..255`, maintain the class-1 mass
`q1` and (denormalised between skipped iterations) mean `mu1`, skip when a
class is empty, and keep the first `i` strictly maximising the
between-class variance `q1*q2*(mu1-mu2)^2`. -/
def otsuThresh (vals : List Nat) : Nat :=
  let n : ℚ := (vals.length : ℚ)
  let mu : ℚ :=
    (((List.range 256).map fun i : Nat => (i : ℚ) * (histCount vals i : ℚ)).sum) / n
  (((List.range 256).foldl (fun st i =>
      let p : ℚ := (histCount vals i : ℚ) / n
      let mu1a := st.mu1 * st.q1
      let q1 := st.q1 + p
      let q2 := 1 - q1
      if q1 = 0 ∨ q2 = 0 then
        ⟨q1, mu1a, st.maxSigma, st.maxVal⟩
      else
        let mu1 := (mu1a + (i : ℚ) * p) / q1
        let mu2 := (mu - q1 * mu1) / q2
        let sigma := q1 * q2 * (mu1 - mu2) ^ 2
        if st.maxSigma < sigma then ⟨q1, mu1, sigma, i⟩
        else ⟨q1, mu1, st.maxSigma, st.maxVal⟩)
    (⟨0, 0, 0, 0⟩ : OtsuSt))).maxVal

/-- OpenCV `cv2.threshold(gray, 0, 255, cv2.THRESH_BINARY | cv2.THRESH_OTSU)`:
pixels strictly above the Otsu threshold become 255, the rest 0. -/
def thresholdOtsuBinary (img : Img) : Img :=
  let t := otsuThresh (pixelList img)
  ⟨img.h, img.w, 1, fun y x _ => if t < img.px y x 0 then 255 else 0⟩

/-- NumPy `np.column_stack(np.where(bw > 0))`: the `(row, col)` coordinates of
all strictly positive pixels, in row-major order. -/
def foregroundCoords (img : Img) : List (Nat × Nat) :=
  (List.range img.h).flatMap fun y =>
    (List.range img.w).filterMap fun x =>
      if 0 < img.px y x 0 then some (y, x) else none

/-- The deskew angle normalisation from the source:
`if angle < -45: angle = -(90 + angle) else: angle = -angle`. -/
def normalizeAngle (a : ℚ) : ℚ :=
  if a < -45 then -(90 + a) else -a

/-- A 2×3 affine transform matrix (row-major `m00 m01 m02 / m10 m11 m12`). -/
structure Affine23 where
  m00 : ℚ
  m01 : ℚ
  m02 : ℚ
  m10 : ℚ
  m11 : ℚ
  m12 : ℚ

/-- OpenCV `cv2.getRotationMatrix2D(center, angle, 1.0)`: with `α = cos θ`,
`β = sin θ` (scale 1), the matrix is
`[[α, β, (1-α)·cx - β·cy], [-β, α, β·cx + (1-α)·cy]]`.
The C library's cosine/sine of the angle (given in degrees) is abstracted
as `cosSinDeg`. -/
def getRotationMatrix2D (cosSinDeg : ℚ → ℚ × ℚ) (cx cy : ℚ) (angle : ℚ) :
    Affine23 :=
  let a := (cosSinDeg angle).1
  let b := (cosSinDeg angle).2
  ⟨a, b, (1 - a) * cx - b * cy, -b, a, b * cx + (1 - a) * cy⟩

/-- OpenCV `cv2.invertAffineTransform`: 2×3 affine inverse (zero matrix on a
singular linear part, as in OpenCV). -/
def invertAffine (M : Affine23) : Affine23 :=
  let d := M.m00 * M.m11 - M.m01 * M.m10
  let di := if d = 0 then 0 else 1 / d
  let a00 := M.m11 * di
  let a01 := -M.m01 * di
  let a10 := -M.m10 * di
  let a11 := M.m00 * di
  ⟨a00, a01, -a00 * M.m02 - a01 * M.m12,
    a10, a11, -a10 * M.m02 - a11 * M.m12⟩

/-- Clamp an integer index into `[0, n-1]` (`cv2.BORDER_REPLICATE`). -/
def clampIdx (n : Nat) (i : ℤ) : Nat :=
  (min (max i 0) ((n : ℤ) - 1)).toNat

/-- Bilinear sampling (`cv2.INTER_LINEAR`) of channel `k` at the source
coordinate `(sx, sy)`, with replicated borders. -/
def sampleBilinear (img : Img) (sx sy : ℚ) (k : Nat) : ℚ :=
  let x0 : ℤ := ⌊sx⌋
  let y0 : ℤ := ⌊sy⌋
  let dx : ℚ := sx - (x0 : ℚ)
  let dy : ℚ := sy - (y0 : ℚ)
  let p : ℤ → ℤ → ℚ := fun yi xi =>
    (img.px (clampIdx img.h yi) (clampIdx img.w xi) k : ℚ)
  (1 - dx) * (1 - dy) * p y0 x0 + dx * (1 - dy) * p y0 (x0 + 1)
    + (1 - dx) * dy * p (y0 + 1) x0 + dx * dy * p (y0 + 1) (x0 + 1)

/-- OpenCV `cv2.warpAffine(img, M, (w, h), flags=cv2.INTER_LINEAR,
borderMode=cv2.BORDER_REPLICATE)`: without `WARP_INVERSE_MAP`, OpenCV
inverts `M` and samples the source at the inverse image of each
destination pixel; 8-bit output by rounding. -/
def warpAffine (img : Img) (M : Affine23) (dw dh : Nat) : Img :=
  let iM := invertAffine M
  ⟨dh, dw, img.c, fun y x k =>
    let sx := iM.m00 * (x : ℚ) + iM.m01 * (y : ℚ) + iM.m02
    let sy := iM.m10 * (x : ℚ) + iM.m11 * (y : ℚ) + iM.m12
    (round (sampleBilinear img sx sy k)).toNat⟩

/-- OpenCV `cv2.cvtColor(out, cv2.COLOR_GRAY2BGR)`: replicate the single channel
into 3 channels. -/
def cvtColorGRAY2BGR (img : Img) : Img :=
  ⟨img.h, img.w, 3, fun y x _ => img.px y x 0⟩

/-- Python `os.path.basename` for POSIX paths: the part after the last `/`. -/
def basename (p : String) : String :=
  (p.splitOn "/").getLastD ""

/-- The root part of `os.path.splitext` applied to a plain file name
(no `/`): drop the extension starting at the last dot, unless every
character before that dot is itself a dot (so `.bashrc` keeps its name),
following CPython's `genericpath._splitext`. -/
def stripext (b : String) : String :=
  let cs := b.toList
  match ((List.range cs.length).filter fun i => cs.get? i = some '.').getLast? with
  | none => b
  | some d =>
    if (List.range d).any (fun i => cs.get? i ≠ some '.') then
      String.mk (cs.take d)
    else b

/-- Python `os.path.join` for POSIX paths (two arguments): an absolute second
component replaces the first; otherwise insert a `/` unless the first
already ends with one. -/
def osPathJoin (a b : String) : String :=
  if b.startsWith "/" then b
  else if a = "" ∨ a.endsWith "/" then a ++ b
  else a ++ "/" ++ b

/-- The exceptions `preprocess_image` can raise. -/
inductive PreprocessError
  /-- `raise ValueError(f"Could not read image at ...")` on a decode
  failure (the spec's `InvalidImage`). -/
  | valueError (msg : String)
  /-- Python `UnboundLocalError`: the `op` branch has no `else` arm, so on
  an unrecognised `op` the local `out` is never assigned and the later
  `out.ndim` access raises. -/
  | unboundLocalError
  /-- The typed configuration error named `UnsupportedOperation` by the
  spec's failure-mode taxonomy; the source never constructs it — it is
  listed here only so statements can compare the source's behaviour with
  the spec's. -/
  | unsupportedOperation
deriving DecidableEq

/-- A successful `preprocess_image` call: the returned path and the image
that was encoded and written there by `cv2.imwrite`. -/
structure PreprocessResult where
  path : String
  written : Img

/-- Embedding of `preprocess_image(img_path, op="threshold", target_width=1600)` from
`src/additions/additions_1_opencv.py`.

External collaborators are arguments: `resamplePx` (cubic resampling
content), `bilateralPx` / `adaptivePx` (filter contents), `marAngle`
(`cv2.minAreaRect(...)[-1]`, the raw orientation angle of the minimum-area
rectangle over the given coordinates), `cosSinDeg` (cosine/sine used by
`cv2.getRotationMatrix2D`), `tmpdir` (`tempfile.gettempdir()`), and
`imread` (the result of `cv2.imread(img_path)`, `none` on decode
failure). A single-channel result (`out.ndim == 2` in numpy, i.e. channel
count 1 here) is converted to 3 channels before writing. -/
def preprocess_image
    (resamplePx : Img → ℚ → ℚ → Nat → Nat → Nat → Nat)
    (bilateralPx : Img → Nat → Nat → Nat → Nat)
    (adaptivePx : Img → Nat → Nat → Nat → Nat)
    (marAngle : List (Nat × Nat) → ℚ)
    (cosSinDeg : ℚ → ℚ × ℚ)
    (tmpdir : String)
    (img_path : String)
    (imread : Option Img)
    (op : String := "threshold")
    (target_width : Option Nat := some 1600) :
    Except PreprocessError PreprocessResult :=
  match imread with
  | none => .error (.valueError ("Could not read image at " ++ img_path))
  | some img0 =>
    let img := upscale resamplePx img0 target_width
    let outOpt : Option Img :=
      if op = "threshold" then
        let gray := cvtColorBGR2GRAY img
        let gray2 := bilateralFilter bilateralPx gray
        some (adaptiveThreshold adaptivePx gray2)
      else if op = "deskew" then
        let gray := bitwise_not (cvtColorBGR2GRAY img)
        let bw := thresholdOtsuBinary gray
        let coords := foregroundCoords bw
        let angle : ℚ :=
          if coords.isEmpty then 0 else normalizeAngle (marAngle coords)
        let M := getRotationMatrix2D cosSinDeg ((img.w / 2 : Nat) : ℚ)
          ((img.h / 2 : Nat) : ℚ) angle
        some (warpAffine img M img.w img.h)
      else none
    match outOpt with
    | none => .error .unboundLocalError
    | some out =>
      let out3 := if out.c = 1 then cvtColorGRAY2BGR out else out
      .ok ⟨osPathJoin tmpdir (stripext (basename img_path) ++ "_proc_" ++ op ++ ".png"),
        out3⟩

/-- The foreground coordinates the deskew branch computes on the
post-upscaling image (named for use in statements; definitionally the
branch's `coords`). -/
def deskewCoords (resamplePx : Img → ℚ → ℚ → Nat → Nat → Nat → Nat)
    (img : Img) (tw : Option Nat) : List (Nat × Nat) :=
  foregroundCoords (thresholdOtsuBinary (bitwise_not (cvtColorBGR2GRAY
    (upscale resamplePx img tw))))

/-- The rotation angle the deskew branch computes: 0 when no foreground
pixel exists, otherwise the normalised minimum-area-rectangle angle. -/
def deskewAngle (resamplePx : Img → ℚ → ℚ → Nat → Nat → Nat → Nat)
    (marAngle : List (Nat × Nat) → ℚ) (img : Img) (tw : Option Nat) : ℚ :=
  if (deskewCoords resamplePx img tw).isEmpty then 0
  else normalizeAngle (marAngle (deskewCoords resamplePx img tw))

/-- The image the deskew branch produces: the post-upscaling image
rotated about its centre by the deskew angle. -/
def deskewOut (resamplePx : Img → ℚ → ℚ → Nat → Nat → Nat → Nat)
    (marAngle : List (Nat × Nat) → ℚ) (cosSinDeg : ℚ → ℚ × ℚ)
    (img : Img) (tw : Option Nat) : Img :=
  warpAffine (upscale resamplePx img tw)
    (getRotationMatrix2D cosSinDeg
      (((upscale resamplePx img tw).w / 2 : Nat) : ℚ)
      (((upscale resamplePx img tw).h / 2 : Nat) : ℚ)
      (deskewAngle resamplePx marAngle img tw))
    (upscale resamplePx img tw).w (upscale resamplePx img tw).h

/-! ## `extract_text` (`src/agent/tools.py`) -/

/-- The base64 alphabet. -/
def b64Table : List Char :=
  "ABCDEFGHIJKLMNOPQRSTUVWXYZabcdefghijklmnopqrstuvwxyz0123456789+/".toList

/-- Character of a 6-bit group. -/
def b64Char (n : Nat) : Char := b64Table.getD n '='

/-- Python `base64.b64encode` over a byte list (values 0–255), with `=`
padding. -/
def base64Encode : List Nat → List Char
  | [] => []
  | [a] => [b64Char (a / 4), b64Char (a % 4 * 16), '=', '=']
  | [a, b] => [b64Char (a / 4), b64Char (a % 4 * 16 + b / 16),
      b64Char (b % 16 * 4), '=']
  | a :: b :: c :: rest =>
    [b64Char (a / 4), b64Char (a % 4 * 16 + b / 16),
      b64Char (b % 16 * 4 + c / 64), b64Char (c % 64)] ++ base64Encode rest

/-- Python's `str.strip()` whitespace set. -/
def pySpace (c : Char) : Bool :=
  c = ' ' ∨ c = '\t' ∨ c = '\n' ∨ c = '\r' ∨ c = '\x0b' ∨ c = '\x0c'

/-- Python `str.strip()`: drop leading and trailing whitespace. -/
def pyStrip (s : String) : String :=
  String.mk (((s.toList.dropWhile pySpace).reverse.dropWhile pySpace).reverse)

/-- The fixed instruction text sent with the image. -/
def extractPrompt : String :=
  "Extract all the text from this image. Return only the extracted text, no explanations."

/-- The single `HumanMessage` built by `extract_text`: an instruction text
block paired with an inline base64 data URL. -/
structure VisionMessage where
  text : String
  imageUrl : String
deriving DecidableEq

/-- The message `extract_text` sends for the given raw image bytes. -/
def mkVisionMessage (bytes : List Nat) : VisionMessage :=
  ⟨extractPrompt, "data:image/png;base64," ++ String.mk (base64Encode bytes)⟩

/-- What a call to `extract_text` returns and what it prints. -/
structure ExtractOutput where
  result : String
  printed : List String
deriving DecidableEq

/-- Embedding of `extract_text(img_path)` from `src/agent/tools.py`. External
collaborators are arguments: `readFile` (`open(img_path, "rb").read()`,
`.error` when reading raises) and `invoke` (`vision_llm.invoke`, returning
`response.content` or `.error` when the model call raises). The whole body
is wrapped in `try/except Exception`: any failure prints
`"Error extracting text: ..."` and returns `""`; on success the result is
`("" + response.content + "\n\n").strip()`. -/
def extract_text
    (readFile : String → Except String (List Nat))
    (invoke : VisionMessage → Except String String)
    (img_path : String) : ExtractOutput :=
  match readFile img_path with
  | .error e => ⟨"", ["Error extracting text: " ++ e]⟩
  | .ok bytes =>
    match invoke (mkVisionMessage bytes) with
    | .error e => ⟨"", ["Error extracting text: " ++ e]⟩
    | .ok content => ⟨pyStrip (("" ++ content) ++ "\n\n"), []⟩

/-! ## The conversational orchestrator (`src/main.py`, `create_graph`) -/

/-- A structured tool-call request emitted by the driver (here always for
the single registered tool, with its one string argument). -/
structure ToolCall where
  name : String
  argPath : String
deriving DecidableEq

/-- A conversation message (`langchain` role-tagged messages). -/
inductive Msg
  | system (content : String)
  | human (content : String)
  | ai (content : String) (toolCalls : List ToolCall)
  | tool (content : String) (callName : String)
deriving DecidableEq

/-- The `AgentState` from `src/main.py`: the loaded image path and the
append-only message list. -/
structure AgentState where
  inputFile : Option String
  messages : List Msg

/-- The tool description block embedded in the system prompt by
`assistant`. -/
def toolDescription : String :=
  "def extract_text(img_path: str) -> str: Extracts text from an image specified by its file path."

/-- The system message content built by `assistant` (an `f`-string over
the loaded image; Python renders `None` as the text `None`). -/
def systemPrompt (image : Option String) : String :=
  "You are a helpful assistant that can analyze documents with provided tools:\n"
    ++ toolDescription ++ "\n\nCurrently loaded image: "
    ++ (match image with | some s => s | none => "None")

/-- The `assistant` node: invoke the driver on the system message plus the
history, and append its response. The driver
(`llm_with_tools.invoke`, an external model) is abstracted as a function
from the message list to the response content and tool calls. -/
def assistantNode (driver : List Msg → String × List ToolCall)
    (s : AgentState) : AgentState :=
  let r := driver (Msg.system (systemPrompt s.inputFile) :: s.messages)
  { s with messages := s.messages ++ [Msg.ai r.1 r.2] }

/-- Execute one requested tool call, as `langgraph`'s `ToolNode` does over
the registered tool list `[extract_text]`: dispatch by name; an
unregistered name produces an error tool message. `extractImpl` is the
tool's effectful body (path to extracted text). -/
def runToolCall (extractImpl : String → String) (tc : ToolCall) : Msg :=
  if tc.name = "extract_text" then .tool (extractImpl tc.argPath) tc.name
  else .tool (tc.name ++ " is not a valid tool, try one of [extract_text].") tc.name

/-- The tool calls of the last message when it is an AI message
(`tools_condition` inspects exactly this). -/
def lastToolCalls (s : AgentState) : List ToolCall :=
  match s.messages.getLast? with
  | some (.ai _ tcs) => tcs
  | _ => []

/-- The `tools` node: append one tool-result message per requested call of
the last AI message. -/
def toolsNode (extractImpl : String → String) (s : AgentState) : AgentState :=
  { s with messages := s.messages ++ (lastToolCalls s).map (runToolCall extractImpl) }

/-- The nodes of the compiled graph built by `create_graph`:
`assistant`, `tools`, and the terminal `END`. -/
inductive Node
  | assistant
  | tools
  | done
deriving DecidableEq

/-- One transition of the compiled graph from `create_graph`:
`START → assistant`; from `assistant`, `tools_condition` routes to
`tools` when the response requests tool calls and to `END` otherwise;
`tools → assistant`. -/
def graphStep (driver : List Msg → String × List ToolCall)
    (extractImpl : String → String) :
    Node × AgentState → Node × AgentState
  | (.assistant, s) =>
    let s2 := assistantNode driver s
    (if lastToolCalls s2 = [] then .done else .tools, s2)
  | (.tools, s) => (.assistant, toolsNode extractImpl s)
  | (.done, s) => (.done, s)

/-- Run the compiled graph for `n` transitions from the entry node
(`START → assistant`) on the initial state. -/
def runGraph (driver : List Msg → String × List ToolCall)
    (extractImpl : String → String) (init : AgentState) : Nat → Node × AgentState
  | 0 => (.assistant, init)
  | n + 1 => graphStep driver extractImpl (runGraph driver extractImpl init n)

/-- Number of Acting transitions (executions of the `tools` node) among
the first `n` graph transitions. -/
def actingCount (driver : List Msg → String × List ToolCall)
    (extractImpl : String → String) (init : AgentState) : Nat → Nat
  | 0 => 0
  | n + 1 => actingCount driver extractImpl init n
      + (if (runGraph driver extractImpl init n).1 = .tools then 1 else 0)

/-- A driver mock that always re-requests the same `extract_text` tool
call, whatever the history. -/
def alwaysToolDriver (content path : String) :
    List Msg → String × List ToolCall :=
  fun _ => (content, [⟨"extract_text", path⟩])

/-! ## `cleanup_temp_file` (`src/main.py`) -/

/-- A `pathlib.PurePosixPath`: anchor plus components. Parsing keeps
`..` components; it only drops empty and `.` segments. -/
structure PurePath where
  absolute : Bool
  comps : List String
deriving DecidableEq

/-- Split a character list at every occurrence of `sep` (the groups
between separators, like Python `str.split(sep)`). -/
def splitChar (sep : Char) : List Char → List (List Char)
  | [] => [[]]
  | c :: rest =>
    match splitChar sep rest with
    | [] => [[]]
    | g :: gs => if c = sep then [] :: g :: gs else (c :: g) :: gs

/-- Pathlib path parsing (POSIX flavour): a leading `/` is the anchor;
empty and `.` segments are dropped, `..` segments are kept. -/
def parsePath (s : String) : PurePath :=
  ⟨s.toList.head? = some '/',
    ((splitChar '/' s.toList).map String.mk).filter fun c => ¬(c = "" ∨ c = ".")⟩

/-- Python `path.parents`: every proper ancestor obtained by dropping trailing
components, down to the anchor — purely lexical, `..` is not resolved. -/
def pathParents (p : PurePath) : List PurePath :=
  (List.range p.comps.length).map fun i => ⟨p.absolute, p.comps.take i⟩

/-- Embedding of `cleanup_temp_file(file_path)` from `src/main.py`, returning whether
`path.unlink()` executes. `tmpdir` is `tempfile.gettempdir()` and
`fsExists` is `Path(file_path).exists()` (the filesystem, external). The
guard is `file_path and path.exists() and temp_dir in path.parents`. -/
def cleanup_temp_file (tmpdir : String) (fsExists : String → Bool)
    (file_path : String) : Bool :=
  decide (file_path ≠ "") && fsExists file_path
    && decide (parsePath tmpdir ∈ pathParents (parsePath file_path))

/-- Modelled from the spec: a path "actually inside the designated
temporary directory" — after lexically resolving `..` components, the
temporary directory's components are a proper initial segment of the
path's components (same anchor). The source has no such check; this
definition exists to compare the source's lexical guard with the spec's
requirement. -/
def resolveComps (cs : List String) : List String :=
  cs.foldl (fun acc c => if c = ".." then acc.dropLast else acc ++ [c]) []

/-- Modelled from the spec: see `resolveComps`. -/
def actuallyInside (tmpdir p : String) : Bool :=
  ((parsePath p).absolute = (parsePath tmpdir).absolute)
    && (resolveComps (parsePath tmpdir).comps).isPrefixOf
      (resolveComps (parsePath p).comps)
    && decide (resolveComps (parsePath tmpdir).comps
      ≠ resolveComps (parsePath p).comps)

/-! ## `get_llm_with_tools` (`src/main.py`) -/

/-- A `bind_tools` configuration: the bound tool names and the
`parallel_tool_calls` keyword (absent when not passed). -/
structure ToolBinding where
  tools : List String
  parallelToolCalls : Option Bool
deriving DecidableEq

/-- The value returned by `get_llm_with_tools`. -/
inductive LLMWithTools
  | chatOpenAI (model : String) (binding : ToolBinding)
  | chatOllama (model : String) (temperature : ℚ) (binding : ToolBinding)
  /-- the `"huggingface_placeholder"` string: no LLM and no tools bound. -/
  | huggingfacePlaceholder (s : String)
deriving DecidableEq

/-- Python `str.lower()` on one character (ASCII range, which covers the
provider names compared against). -/
def pyLowerChar (c : Char) : Char :=
  if 'A' ≤ c ∧ c ≤ 'Z' then Char.ofNat (c.toNat + 32) else c

/-- Python `str.lower()`. -/
def pyLower (s : String) : String := String.mk (s.toList.map pyLowerChar)

/-- The registered tool list `tools = [extract_text]`. -/
def registeredTools : List String := ["extract_text"]

/-- The providers of `DEFAULT_MODELS`. -/
def supportedProviders : List String := ["openai", "ollama", "huggingface"]

/-- Embedding of `get_llm_with_tools(model_provider, model_name)` from `src/main.py`:
openai binds tools with `parallel_tool_calls=False`; ollama binds tools
with no `parallel_tool_calls` argument; huggingface returns a placeholder
string; anything else raises `ValueError`. -/
def get_llm_with_tools (model_provider model_name : String) :
    Except String LLMWithTools :=
  let provider := pyLower model_provider
  if provider = "openai" then
    .ok (.chatOpenAI model_name ⟨registeredTools, some false⟩)
  else if provider = "ollama" then
    .ok (.chatOllama model_name (7 / 10) ⟨registeredTools, none⟩)
  else if provider = "huggingface" then
    .ok (.huggingfacePlaceholder "huggingface_placeholder")
  else
    .error ("Unsupported provider: " ++ provider
      ++ ". Use: 'openai', 'ollama', 'huggingface'")

/-- Whether a configured LLM has the tool set bound with parallel
tool-call execution explicitly disabled. -/
def parallelDisabled : LLMWithTools → Bool
  | .chatOpenAI _ b => b.parallelToolCalls = some false
  | .chatOllama _ _ b => b.parallelToolCalls = some false
  | .huggingfacePlaceholder _ => false

/-! ## Concrete test fixtures -/

/-- A mocked successful file read (some PNG magic bytes). -/
def mockRead : String → Except String (List Nat) := fun _ => .ok [137, 80, 78, 71]

/-- A mocked vision-model collaborator that raises on invocation. -/
def mockRaisingInvoke : VisionMessage → Except String String :=
  fun _ => .error "model raised"

/-- A 1×1 white 3-channel test image. -/
def whitePixel : Img := ⟨1, 1, 3, fun _ _ _ => 255⟩

/-- A trivial stand-in for the external resampling kernel. -/
def trivialResample : Img → ℚ → ℚ → Nat → Nat → Nat → Nat := fun img _ _ => img.px

/-- A trivial stand-in for the external filter contents. -/
def trivialGrayPx : Img → Nat → Nat → Nat → Nat := fun img y x _ => img.px y x 0

/-- A trivial stand-in for the C library's cosine/sine: correct at
angle 0, where `cos 0 = 1` and `sin 0 = 0`. -/
def trivialCosSin : ℚ → ℚ × ℚ := fun _ => (1, 0)

/-! ## Helper lemmas -/

theorem resize_w (f : Img → ℚ → ℚ → Nat → Nat → Nat → Nat) (img : Img) (fx fy : ℚ) :
    (resize f img fx fy).w = (round (fx * img.w)).toNat := rfl

theorem resize_h (f : Img → ℚ → ℚ → Nat → Nat → Nat → Nat) (img : Img) (fx fy : ℚ) :
    (resize f img fx fy).h = (round (fy * img.h)).toNat := rfl

theorem resize_c (f : Img → ℚ → ℚ → Nat → Nat → Nat → Nat) (img : Img) (fx fy : ℚ) :
    (resize f img fx fy).c = img.c := rfl

/-- Reduction of the upscaling step on a present `target_width`. -/
theorem upscale_some (f : Img → ℚ → ℚ → Nat → Nat → Nat → Nat) (img : Img)
    (tw : Nat) :
    upscale f img (some tw) =
      if img.w < tw then
        resize f img ((tw : ℚ) / (img.w : ℚ)) ((tw : ℚ) / (img.w : ℚ))
      else img := rfl

/-- Width after the upscaling step: `target_width` when the input is
narrower, unchanged otherwise. -/
theorem upscale_w (f : Img → ℚ → ℚ → Nat → Nat → Nat → Nat) (img : Img)
    (tw : Nat) (hw : 0 < img.w) :
    (upscale f img (some tw)).w = if img.w < tw then tw else img.w := by
  rw [upscale_some]
  by_cases h : img.w < tw
  · rw [if_pos h, if_pos h, resize_w]
    rw [div_mul_cancel₀ ((tw : ℚ)) (by exact_mod_cast hw.ne')]
    rw [round_natCast]
    exact Int.toNat_natCast tw
  · rw [if_neg h, if_neg h]

theorem upscale_h (f : Img → ℚ → ℚ → Nat → Nat → Nat → Nat) (img : Img)
    (tw : Nat) :
    (upscale f img (some tw)).h =
      if img.w < tw then (round ((tw : ℚ) / (img.w : ℚ) * img.h)).toNat
      else img.h := by
  rw [upscale_some]
  by_cases h : img.w < tw
  · rw [if_pos h, if_pos h, resize_h]
  · rw [if_neg h, if_neg h]

theorem upscale_c (f : Img → ℚ → ℚ → Nat → Nat → Nat → Nat) (img : Img)
    (tw : Option Nat) :
    (upscale f img tw).c = img.c := by
  cases tw with
  | none => rfl
  | some t =>
    rw [upscale_some]
    by_cases h : img.w < t
    · rw [if_pos h, resize_c]
    · rw [if_neg h]

theorem cvtColorGRAY2BGR_dims (img : Img) :
    (cvtColorGRAY2BGR img).h = img.h ∧ (cvtColorGRAY2BGR img).w = img.w ∧
      (cvtColorGRAY2BGR img).c = 3 :=
  ⟨rfl, rfl, rfl⟩

theorem warpAffine_dims (img : Img) (M : Affine23) (dw dh : Nat) :
    (warpAffine img M dw dh).h = dh ∧ (warpAffine img M dw dh).w = dw ∧
      (warpAffine img M dw dh).c = img.c :=
  ⟨rfl, rfl, rfl⟩

/-- Shape of a successful `preprocess_image` call on the `threshold` op. -/
theorem preprocess_image_threshold_eq
    (resamplePx : Img → ℚ → ℚ → Nat → Nat → Nat → Nat)
    (bilateralPx adaptivePx : Img → Nat → Nat → Nat → Nat)
    (marAngle : List (Nat × Nat) → ℚ) (cosSinDeg : ℚ → ℚ × ℚ)
    (tmpdir img_path : String) (img : Img) (tw : Option Nat) :
    preprocess_image resamplePx bilateralPx adaptivePx marAngle cosSinDeg
      tmpdir img_path (some img) "threshold" tw =
    .ok ⟨osPathJoin tmpdir (stripext (basename img_path) ++ "_proc_" ++ "threshold" ++ ".png"),
      cvtColorGRAY2BGR (adaptiveThreshold adaptivePx (bilateralFilter bilateralPx
        (cvtColorBGR2GRAY (upscale resamplePx img tw))))⟩ := rfl

/-- Shape of a successful `preprocess_image` call on the `deskew` op. -/
theorem preprocess_image_deskew_eq
    (resamplePx : Img → ℚ → ℚ → Nat → Nat → Nat → Nat)
    (bilateralPx adaptivePx : Img → Nat → Nat → Nat → Nat)
    (marAngle : List (Nat × Nat) → ℚ) (cosSinDeg : ℚ → ℚ × ℚ)
    (tmpdir img_path : String) (img : Img) (tw : Option Nat) :
    preprocess_image resamplePx bilateralPx adaptivePx marAngle cosSinDeg
      tmpdir img_path (some img) "deskew" tw =
    .ok ⟨osPathJoin tmpdir (stripext (basename img_path) ++ "_proc_" ++ "deskew" ++ ".png"),
      if (deskewOut resamplePx marAngle cosSinDeg img tw).c = 1 then
        cvtColorGRAY2BGR (deskewOut resamplePx marAngle cosSinDeg img tw)
      else deskewOut resamplePx marAngle cosSinDeg img tw⟩ := rfl

/-! ## C1 — `extract_text` is fail-soft -/

/-- C1: for every input path, `extract_text` never propagates an
exception: if reading the image fails, or the vision model raises on
invocation, it prints the error report and returns the empty string. -/
theorem extract_text_fail_soft
    (readFile : String → Except String (List Nat))
    (invoke : VisionMessage → Except String String) (p : String)
    (hfail : (∃ e, readFile p = .error e) ∨
      (∃ bs e, readFile p = .ok bs ∧ invoke (mkVisionMessage bs) = .error e)) :
    (extract_text readFile invoke p).result = "" ∧
      (extract_text readFile invoke p).printed ≠ [] := by
  rcases hfail with ⟨e, he⟩ | ⟨bs, e, hb, he⟩
  · simp [extract_text, he]
  · simp [extract_text, hb, he]

/-- Witness for C1 at a concrete path, file content and raising model. -/
theorem extract_text_fail_soft_witness :
    (extract_text mockRead mockRaisingInvoke "img.png").result = "" ∧
      (extract_text mockRead mockRaisingInvoke "img.png").printed ≠ [] :=
  extract_text_fail_soft mockRead mockRaisingInvoke "img.png"
    (Or.inr ⟨[137, 80, 78, 71], "model raised", rfl, rfl⟩)

/-! ## C5 — deskew angle normalisation -/

/-- C5: the rotation applied by the deskew pipeline to a raw
minimum-area-rectangle angle is `-(90 + angle)` for `angle < -45` (strict
boundary) and `-angle` otherwise, and over the raw range `[-90, 0]`
produced by `cv2.minAreaRect`'s classic convention the result lies in
`(-45, 45]`. -/
theorem normalizeAngle_branches_and_range (a : ℚ) (h1 : -90 ≤ a) (h2 : a ≤ 0) :
    (a < -45 → normalizeAngle a = -(90 + a)) ∧
      (-45 ≤ a → normalizeAngle a = -a) ∧
      -45 < normalizeAngle a ∧ normalizeAngle a ≤ 45 := by
  unfold normalizeAngle
  refine ⟨fun h => if_pos h, fun h => if_neg (not_lt.mpr h), ?_, ?_⟩
  · by_cases h : a < -45
    · rw [if_pos h]; linarith
    · rw [if_neg h]; push_neg at h; linarith
  · by_cases h : a < -45
    · rw [if_pos h]; linarith
    · rw [if_neg h]; linarith

/-- Witness for C5 at the documented boundary `angle = -45`: the strict
comparison sends it through the `-angle` branch, giving 45. -/
theorem normalizeAngle_witness :
    (((-45 : ℚ) < -45 → normalizeAngle (-45) = -(90 + (-45))) ∧
      ((-45 : ℚ) ≤ -45 → normalizeAngle (-45) = -(-45)) ∧
      -45 < normalizeAngle (-45) ∧ normalizeAngle (-45) ≤ 45) :=
  normalizeAngle_branches_and_range (-45) (by norm_num) (by norm_num)

/-! ## C10 — parallel tool calls -/

/-- C10 counterexample: `ollama` is a supported provider, yet
`get_llm_with_tools` binds its tools without disabling parallel tool-call
execution (`bind_tools` is called with no `parallel_tool_calls`
argument), so the claim fails for the ollama provider. -/
theorem get_llm_ollama_parallel_not_disabled :
    "ollama" ∈ supportedProviders ∧
      get_llm_with_tools "ollama" "llava:7b" =
        .ok (.chatOllama "llava:7b" (7 / 10) ⟨registeredTools, none⟩) ∧
      parallelDisabled (.chatOllama "llava:7b" (7 / 10) ⟨registeredTools, none⟩)
        = false :=
  ⟨by decide, rfl, rfl⟩

/-- C10 amended: only the openai provider binds the tool set with
parallel tool-call execution explicitly disabled; ollama binds the tools
without the flag, and huggingface returns a placeholder with no tools
bound at all. -/
theorem get_llm_parallel_disabled_only_openai (m : String) :
    get_llm_with_tools "openai" m =
        .ok (.chatOpenAI m ⟨registeredTools, some false⟩) ∧
      parallelDisabled (.chatOpenAI m ⟨registeredTools, some false⟩) = true ∧
      get_llm_with_tools "ollama" m =
        .ok (.chatOllama m (7 / 10) ⟨registeredTools, none⟩) ∧
      parallelDisabled (.chatOllama m (7 / 10) ⟨registeredTools, none⟩) = false ∧
      get_llm_with_tools "huggingface" m =
        .ok (.huggingfacePlaceholder "huggingface_placeholder") :=
  ⟨rfl, rfl, rfl, rfl, rfl⟩

/-! ## C3 — unsupported preprocessing op -/

/-- C3 counterexample: on the readable 1×1 image with `op="rotate"`,
`preprocess_image` raises the untyped `UnboundLocalError` (the `op`
branch has no `else` arm, so `out` is never assigned), not the typed
`UnsupportedOperation` configuration error the claim names. -/
theorem preprocess_image_rotate_not_unsupported :
    preprocess_image trivialResample trivialGrayPx trivialGrayPx
        (fun _ => 0) (fun _ => (1, 0)) "/tmp" "/tmp/doc.png" (some whitePixel)
        "rotate" (some 1600)
      = .error .unboundLocalError ∧
    (PreprocessError.unboundLocalError ≠ .unsupportedOperation) :=
  ⟨rfl, by decide⟩

/-- C3 amended: for every readable input image and every `op` outside
`{"threshold", "deskew"}`, `preprocess_image` fails — with an untyped
`UnboundLocalError` from the never-assigned `out` variable rather than a
typed `UnsupportedOperation` — and produces no output image. -/
theorem preprocess_image_unsupported_op
    (resamplePx : Img → ℚ → ℚ → Nat → Nat → Nat → Nat)
    (bilateralPx adaptivePx : Img → Nat → Nat → Nat → Nat)
    (marAngle : List (Nat × Nat) → ℚ) (cosSinDeg : ℚ → ℚ × ℚ)
    (tmpdir img_path : String) (img : Img) (op : String) (tw : Option Nat)
    (h1 : op ≠ "threshold") (h2 : op ≠ "deskew") :
    preprocess_image resamplePx bilateralPx adaptivePx marAngle cosSinDeg
      tmpdir img_path (some img) op tw = .error .unboundLocalError := by
  unfold preprocess_image
  simp [h1, h2]

/-- Witness for C3's amended theorem at `op = "rotate"`. -/
theorem preprocess_image_unsupported_op_witness :
    preprocess_image trivialResample trivialGrayPx trivialGrayPx
      (fun _ => 0) (fun _ => (1, 0)) "/tmp" "/tmp/doc.png" (some whitePixel)
      "rotate" none = .error .unboundLocalError :=
  preprocess_image_unsupported_op trivialResample trivialGrayPx trivialGrayPx
    (fun _ => 0) (fun _ => (1, 0)) "/tmp" "/tmp/doc.png" whitePixel "rotate"
    none (by decide) (by decide)

/-! ## C4 — upscaling policy -/

/-- The width of the image written by the deskew branch equals the
post-upscaling width, whichever way channel normalisation goes. -/
theorem deskew_written_w (resamplePx : Img → ℚ → ℚ → Nat → Nat → Nat → Nat)
    (marAngle : List (Nat × Nat) → ℚ) (cosSinDeg : ℚ → ℚ × ℚ)
    (img : Img) (tw : Option Nat) :
    (if (deskewOut resamplePx marAngle cosSinDeg img tw).c = 1 then
        cvtColorGRAY2BGR (deskewOut resamplePx marAngle cosSinDeg img tw)
      else deskewOut resamplePx marAngle cosSinDeg img tw).w
      = (upscale resamplePx img tw).w := by
  by_cases hc : (deskewOut resamplePx marAngle cosSinDeg img tw).c = 1
  · rw [if_pos hc]; rfl
  · rw [if_neg hc]; rfl

/-- C4: for every decodable input image (either supported op), the call
succeeds and: when the input width is strictly below `target_width`, the
written image's width is exactly `target_width` (so at least
`target_width`; the resize applies the same rational scale to both axes
with `INTER_CUBIC`); when the input width is at least `target_width`, the
written width equals the input width. -/
theorem preprocess_image_upscale_width
    (resamplePx : Img → ℚ → ℚ → Nat → Nat → Nat → Nat)
    (bilateralPx adaptivePx : Img → Nat → Nat → Nat → Nat)
    (marAngle : List (Nat × Nat) → ℚ) (cosSinDeg : ℚ → ℚ × ℚ)
    (tmpdir img_path : String) (img : Img) (op : String) (tw : Nat)
    (hop : op = "threshold" ∨ op = "deskew") (hw : 0 < img.w) :
    ∃ r, preprocess_image resamplePx bilateralPx adaptivePx marAngle cosSinDeg
        tmpdir img_path (some img) op (some tw) = .ok r ∧
      (img.w < tw → tw ≤ r.written.w ∧ r.written.w = tw) ∧
      (¬ img.w < tw → r.written.w = img.w) := by
  have hup := upscale_w resamplePx img tw hw
  rcases hop with h | h
  · subst h
    refine ⟨_, preprocess_image_threshold_eq resamplePx bilateralPx adaptivePx
      marAngle cosSinDeg tmpdir img_path img (some tw), ?_, ?_⟩
    · intro hlt
      show tw ≤ (upscale resamplePx img (some tw)).w
        ∧ (upscale resamplePx img (some tw)).w = tw
      rw [hup, if_pos hlt]
      exact ⟨le_rfl, rfl⟩
    · intro hge
      show (upscale resamplePx img (some tw)).w = img.w
      rw [hup, if_neg hge]
  · subst h
    refine ⟨_, preprocess_image_deskew_eq resamplePx bilateralPx adaptivePx
      marAngle cosSinDeg tmpdir img_path img (some tw), ?_, ?_⟩
    · intro hlt
      have hh : (if (deskewOut resamplePx marAngle cosSinDeg img (some tw)).c = 1 then
          cvtColorGRAY2BGR (deskewOut resamplePx marAngle cosSinDeg img (some tw))
        else deskewOut resamplePx marAngle cosSinDeg img (some tw)).w = tw := by
        rw [deskew_written_w, hup, if_pos hlt]
      exact ⟨hh.ge, hh⟩
    · intro hge
      show (if (deskewOut resamplePx marAngle cosSinDeg img (some tw)).c = 1 then
          cvtColorGRAY2BGR (deskewOut resamplePx marAngle cosSinDeg img (some tw))
        else deskewOut resamplePx marAngle cosSinDeg img (some tw)).w = img.w
      rw [deskew_written_w, hup, if_neg hge]

/-- Witness for C4 on a 1×1 image upscaled towards the default 1600. -/
theorem preprocess_image_upscale_width_witness :
    ∃ r, preprocess_image trivialResample trivialGrayPx trivialGrayPx
        (fun _ => 0) trivialCosSin "/tmp" "/tmp/doc.png" (some whitePixel)
        "threshold" (some 1600) = .ok r ∧
      (whitePixel.w < 1600 → 1600 ≤ r.written.w ∧ r.written.w = 1600) ∧
      (¬ whitePixel.w < 1600 → r.written.w = whitePixel.w) :=
  preprocess_image_upscale_width trivialResample trivialGrayPx trivialGrayPx
    (fun _ => 0) trivialCosSin "/tmp" "/tmp/doc.png" whitePixel "threshold"
    1600 (Or.inl rfl) (by decide)

/-! ## C7 — written image always has 3 channels -/

/-- C7: every successful `preprocess_image` call writes a 3-channel
image: the threshold branch's single-channel result is converted with
`COLOR_GRAY2BGR` before encoding, and the deskew branch rotates the
3-channel decoded image (`cv2.imread` always decodes to 3 channels). -/
theorem preprocess_image_written_channels
    (resamplePx : Img → ℚ → ℚ → Nat → Nat → Nat → Nat)
    (bilateralPx adaptivePx : Img → Nat → Nat → Nat → Nat)
    (marAngle : List (Nat × Nat) → ℚ) (cosSinDeg : ℚ → ℚ × ℚ)
    (tmpdir img_path : String) (img : Img) (op : String) (tw : Option Nat)
    (himgc : img.c = 3) (hop : op = "threshold" ∨ op = "deskew") :
    ∃ r, preprocess_image resamplePx bilateralPx adaptivePx marAngle cosSinDeg
        tmpdir img_path (some img) op tw = .ok r ∧ r.written.c = 3 := by
  rcases hop with h | h
  · subst h
    exact ⟨_, preprocess_image_threshold_eq resamplePx bilateralPx adaptivePx
      marAngle cosSinDeg tmpdir img_path img tw, rfl⟩
  · subst h
    refine ⟨_, preprocess_image_deskew_eq resamplePx bilateralPx adaptivePx
      marAngle cosSinDeg tmpdir img_path img tw, ?_⟩
    have hc : (deskewOut resamplePx marAngle cosSinDeg img tw).c = 3 := by
      show (upscale resamplePx img tw).c = 3
      rw [upscale_c, himgc]
    show (if (deskewOut resamplePx marAngle cosSinDeg img tw).c = 1 then
        cvtColorGRAY2BGR (deskewOut resamplePx marAngle cosSinDeg img tw)
      else deskewOut resamplePx marAngle cosSinDeg img tw).c = 3
    rw [if_neg (by rw [hc]; norm_num)]
    exact hc

/-- Witness for C7 on the deskew op. -/
theorem preprocess_image_written_channels_witness :
    ∃ r, preprocess_image trivialResample trivialGrayPx trivialGrayPx
        (fun _ => 0) trivialCosSin "/tmp" "/tmp/doc.png" (some whitePixel)
        "deskew" (some 1600) = .ok r ∧ r.written.c = 3 :=
  preprocess_image_written_channels trivialResample trivialGrayPx trivialGrayPx
    (fun _ => 0) trivialCosSin "/tmp" "/tmp/doc.png" whitePixel "deskew"
    (some 1600) rfl (Or.inr rfl)

/-! ## C8 — deterministic output path -/

/-- C8: every successful `preprocess_image` call returns the path
`os.path.join(tempdir, base + "_proc_" + op + ".png")` where `base` is the
input's extension-stripped base name; the path depends only on that base
name and the op, so two calls whose inputs share a base name (in
particular, two calls on the same input and op) return the same path and
the second write overwrites the first. -/
theorem preprocess_image_path_deterministic
    (resamplePx1 resamplePx2 : Img → ℚ → ℚ → Nat → Nat → Nat → Nat)
    (bilateralPx1 adaptivePx1 bilateralPx2 adaptivePx2 : Img → Nat → Nat → Nat → Nat)
    (marAngle1 marAngle2 : List (Nat × Nat) → ℚ) (cosSinDeg1 cosSinDeg2 : ℚ → ℚ × ℚ)
    (tmpdir p1 p2 : String) (img1 img2 : Img) (op : String) (tw1 tw2 : Option Nat)
    (hop : op = "threshold" ∨ op = "deskew") :
    (preprocess_image resamplePx1 bilateralPx1 adaptivePx1 marAngle1 cosSinDeg1
        tmpdir p1 (some img1) op tw1).map PreprocessResult.path
      = .ok (osPathJoin tmpdir (stripext (basename p1) ++ "_proc_" ++ op ++ ".png")) ∧
    (stripext (basename p1) = stripext (basename p2) →
      (preprocess_image resamplePx1 bilateralPx1 adaptivePx1 marAngle1 cosSinDeg1
          tmpdir p1 (some img1) op tw1).map PreprocessResult.path
        = (preprocess_image resamplePx2 bilateralPx2 adaptivePx2 marAngle2 cosSinDeg2
          tmpdir p2 (some img2) op tw2).map PreprocessResult.path) := by
  have key : ∀ (R : Img → ℚ → ℚ → Nat → Nat → Nat → Nat)
      (B A : Img → Nat → Nat → Nat → Nat) (M : List (Nat × Nat) → ℚ)
      (C : ℚ → ℚ × ℚ) (p : String) (img : Img) (tw : Option Nat),
      (preprocess_image R B A M C tmpdir p (some img) op tw).map PreprocessResult.path
        = .ok (osPathJoin tmpdir (stripext (basename p) ++ "_proc_" ++ op ++ ".png")) := by
    intro R B A M C p img tw
    rcases hop with h | h
    · subst h; rw [preprocess_image_threshold_eq]; rfl
    · subst h; rw [preprocess_image_deskew_eq]; rfl
  refine ⟨key resamplePx1 bilateralPx1 adaptivePx1 marAngle1 cosSinDeg1 p1 img1 tw1, ?_⟩
  intro hb
  rw [key resamplePx1 bilateralPx1 adaptivePx1 marAngle1 cosSinDeg1 p1 img1 tw1,
    key resamplePx2 bilateralPx2 adaptivePx2 marAngle2 cosSinDeg2 p2 img2 tw2, hb]

/-- Witness for C8: two inputs in different directories with different
extensions but the same base name `doc`, on the threshold op. -/
theorem preprocess_image_path_deterministic_witness :
    (preprocess_image trivialResample trivialGrayPx trivialGrayPx
        (fun _ => 0) trivialCosSin "/tmp" "/a/doc.png" (some whitePixel)
        "threshold" none).map PreprocessResult.path
      = .ok (osPathJoin "/tmp" (stripext (basename "/a/doc.png") ++ "_proc_"
        ++ "threshold" ++ ".png")) ∧
    (stripext (basename "/a/doc.png") = stripext (basename "/b/sub/doc.jpg") →
      (preprocess_image trivialResample trivialGrayPx trivialGrayPx
          (fun _ => 0) trivialCosSin "/tmp" "/a/doc.png" (some whitePixel)
          "threshold" none).map PreprocessResult.path
        = (preprocess_image trivialResample trivialGrayPx trivialGrayPx
          (fun _ => 0) trivialCosSin "/tmp" "/b/sub/doc.jpg" (some whitePixel)
          "threshold" (some 1600)).map PreprocessResult.path) :=
  preprocess_image_path_deterministic trivialResample trivialResample
    trivialGrayPx trivialGrayPx trivialGrayPx trivialGrayPx
    (fun _ => 0) (fun _ => 0) trivialCosSin trivialCosSin
    "/tmp" "/a/doc.png" "/b/sub/doc.jpg" whitePixel whitePixel
    "threshold" none (some 1600) (Or.inl rfl)

/-! ## C9 — cleanup guard -/

/-- C9: the guard `temp_dir in path.parents` is lexical — `pathlib` does
not resolve `..` — so the crafted argument `/tmp/../etc/passwd` has
`/tmp` among its parents and `cleanup_temp_file` unlinks it, although the
file it denotes (`/etc/passwd`) is not actually inside the temporary
directory: a malicious path argument does cause deletion of an arbitrary
filesystem path. -/
theorem cleanup_temp_file_escapes_tmpdir :
    cleanup_temp_file "/tmp" (fun _ => true) "/tmp/../etc/passwd" = true ∧
      actuallyInside "/tmp" "/tmp/../etc/passwd" = false := by
  constructor
  · decide
  · decide

/-! ## C2 — no Acting-transition bound in the orchestrator loop -/

/-- With the always-tool driver, the assistant node always routes to the
tools node. -/
theorem graphStep_fst_assistant_always (extractImpl : String → String)
    (c p : String) (r : Node × AgentState) (h : r.1 = .assistant) :
    (graphStep (alwaysToolDriver c p) extractImpl r).1 = .tools := by
  obtain ⟨n, s⟩ := r
  cases h
  have hlast : lastToolCalls (assistantNode (alwaysToolDriver c p) s)
      = [⟨"extract_text", p⟩] := by
    simp [lastToolCalls, assistantNode, alwaysToolDriver]
  show (if lastToolCalls (assistantNode (alwaysToolDriver c p) s) = []
    then Node.done else Node.tools) = Node.tools
  rw [hlast]
  simp

/-- The tools node always routes back to the assistant node. -/
theorem graphStep_fst_tools (driver : List Msg → String × List ToolCall)
    (extractImpl : String → String) (r : Node × AgentState)
    (h : r.1 = .tools) :
    (graphStep driver extractImpl r).1 = .assistant := by
  obtain ⟨n, s⟩ := r
  cases h
  rfl

/-- Under the always-tool driver the loop alternates between the
Thinking and Acting nodes forever. -/
theorem runGraph_always_parity (extractImpl : String → String)
    (init : AgentState) (c p : String) (k : Nat) :
    (runGraph (alwaysToolDriver c p) extractImpl init (2 * k)).1 = .assistant ∧
      (runGraph (alwaysToolDriver c p) extractImpl init (2 * k + 1)).1 = .tools := by
  induction k with
  | zero =>
    exact ⟨rfl, graphStep_fst_assistant_always extractImpl c p _ rfl⟩
  | succ m ih =>
    have h1 : (runGraph (alwaysToolDriver c p) extractImpl init (2 * (m + 1))).1
        = .assistant := by
      have h2 : 2 * (m + 1) = 2 * m + 1 + 1 := by ring
      rw [h2]
      exact graphStep_fst_tools _ _ _ ih.2
    exact ⟨h1, graphStep_fst_assistant_always extractImpl c p _ h1⟩

/-- Under the always-tool driver, the first `2n` transitions contain
exactly `n` Acting transitions: the count grows without bound. -/
theorem actingCount_always (extractImpl : String → String)
    (init : AgentState) (c p : String) (n : Nat) :
    actingCount (alwaysToolDriver c p) extractImpl init (2 * n) = n := by
  induction n with
  | zero => rfl
  | succ m ih =>
    have hpar := runGraph_always_parity extractImpl init c p m
    have h2 : 2 * (m + 1) = 2 * m + 1 + 1 := by ring
    rw [h2]
    have e1 : actingCount (alwaysToolDriver c p) extractImpl init (2 * m + 1 + 1)
        = actingCount (alwaysToolDriver c p) extractImpl init (2 * m + 1)
          + (if (runGraph (alwaysToolDriver c p) extractImpl init (2 * m + 1)).1
            = .tools then 1 else 0) := rfl
    have e2 : actingCount (alwaysToolDriver c p) extractImpl init (2 * m + 1)
        = actingCount (alwaysToolDriver c p) extractImpl init (2 * m)
          + (if (runGraph (alwaysToolDriver c p) extractImpl init (2 * m)).1
            = .tools then 1 else 0) := rfl
    rw [e1, e2, ih, if_pos hpar.2, if_neg (by rw [hpar.1]; decide)]

/-- C2: the conversation graph compiled by `create_graph` has no
Acting-transition cap: under a driver mock that always re-requests the
same `extract_text` tool call, the loop never reaches the terminal node
and performs `n` Acting transitions within the first `2n` steps for
every `n` — there is no configurable maximum and no `LoopLimitExceeded`
in the code, contrary to the claim that exactly the configured number of
Acting transitions occur and then the loop terminates. -/
theorem create_graph_loops_without_bound (extractImpl : String → String)
    (init : AgentState) (c p : String) (n : Nat) :
    (runGraph (alwaysToolDriver c p) extractImpl init n).1 ≠ .done ∧
      actingCount (alwaysToolDriver c p) extractImpl init (2 * n) = n := by
  constructor
  · rcases Nat.even_or_odd n with ⟨k, hk⟩ | ⟨k, hk⟩
    · subst hk
      rw [show k + k = 2 * k from by ring,
        (runGraph_always_parity extractImpl init c p k).1]
      decide
    · subst hk
      rw [(runGraph_always_parity extractImpl init c p k).2]
      decide
  · exact actingCount_always extractImpl init c p n

/-! ## C6 — deskew with zero foreground pixels -/

/-- The matrix `getRotationMatrix2D` at angle 0 (where `cos = 1`, `sin = 0`) is the
identity affine transform. -/
theorem getRotationMatrix2D_zero (cosSinDeg : ℚ → ℚ × ℚ)
    (h : cosSinDeg 0 = (1, 0)) (cx cy : ℚ) :
    getRotationMatrix2D cosSinDeg cx cy 0 = ⟨1, 0, 0, 0, 1, 0⟩ := by
  simp [getRotationMatrix2D, h]

/-- Inverting the identity affine transform gives it back. -/
theorem invertAffine_id : invertAffine ⟨1, 0, 0, 0, 1, 0⟩ = ⟨1, 0, 0, 0, 1, 0⟩ := by
  norm_num [invertAffine]

theorem clampIdx_of_lt (n x : Nat) (h : x < n) : clampIdx n (x : ℤ) = x := by
  unfold clampIdx
  rw [max_eq_left (Int.natCast_nonneg x), min_eq_left (by omega)]
  exact Int.toNat_natCast x

/-- Bilinear sampling at an in-range integer grid point returns the pixel
itself. -/
theorem sampleBilinear_int (img : Img) (x y k : Nat)
    (hx : x < img.w) (hy : y < img.h) :
    sampleBilinear img (x : ℚ) (y : ℚ) k = (img.px y x k : ℚ) := by
  simp only [sampleBilinear, Int.floor_natCast, Rat.cast_natCast, Int.cast_natCast,
    sub_self]
  rw [clampIdx_of_lt _ _ hx, clampIdx_of_lt _ _ hy]
  ring

/-- Warping by the identity affine transform leaves every in-range pixel
unchanged. -/
theorem warpAffine_id_px (img : Img) (y x k : Nat)
    (hy : y < img.h) (hx : x < img.w) :
    (warpAffine img ⟨1, 0, 0, 0, 1, 0⟩ img.w img.h).px y x k = img.px y x k := by
  simp only [warpAffine, invertAffine_id]
  have hsx : ((⟨1, 0, 0, 0, 1, 0⟩ : Affine23).m00 * (x : ℚ)
      + (⟨1, 0, 0, 0, 1, 0⟩ : Affine23).m01 * (y : ℚ)
      + (⟨1, 0, 0, 0, 1, 0⟩ : Affine23).m02) = (x : ℚ) := by norm_num
  have hsy : ((⟨1, 0, 0, 0, 1, 0⟩ : Affine23).m10 * (x : ℚ)
      + (⟨1, 0, 0, 0, 1, 0⟩ : Affine23).m11 * (y : ℚ)
      + (⟨1, 0, 0, 0, 1, 0⟩ : Affine23).m12) = (y : ℚ) := by norm_num
  rw [hsx, hsy, sampleBilinear_int img x y k hx hy, round_natCast,
    Int.toNat_natCast]

/-- C6: for every decodable 3-channel input whose Otsu-binarised inverted
grayscale has zero foreground pixels, the deskew op does not raise, the
rotation angle defaults to 0, and the written image equals the
post-upscaling image (same size, every in-range pixel unchanged). -/
theorem preprocess_image_deskew_blank
    (resamplePx : Img → ℚ → ℚ → Nat → Nat → Nat → Nat)
    (bilateralPx adaptivePx : Img → Nat → Nat → Nat → Nat)
    (marAngle : List (Nat × Nat) → ℚ) (cosSinDeg : ℚ → ℚ × ℚ)
    (tmpdir img_path : String) (img : Img) (tw : Option Nat)
    (htrig : cosSinDeg 0 = (1, 0))
    (himgc : img.c = 3)
    (hfg : deskewCoords resamplePx img tw = []) :
    ∃ r, preprocess_image resamplePx bilateralPx adaptivePx marAngle cosSinDeg
        tmpdir img_path (some img) "deskew" tw = .ok r ∧
      deskewAngle resamplePx marAngle img tw = 0 ∧
      r.written.h = (upscale resamplePx img tw).h ∧
      r.written.w = (upscale resamplePx img tw).w ∧
      ∀ y x k, y < (upscale resamplePx img tw).h →
        x < (upscale resamplePx img tw).w →
        r.written.px y x k = (upscale resamplePx img tw).px y x k := by
  have hang : deskewAngle resamplePx marAngle img tw = 0 := by
    unfold deskewAngle
    rw [hfg]
    rfl
  have hcu : (upscale resamplePx img tw).c = 3 := by rw [upscale_c, himgc]
  have hne : ¬(deskewOut resamplePx marAngle cosSinDeg img tw).c = 1 := by
    have hdc : (deskewOut resamplePx marAngle cosSinDeg img tw).c = 3 := hcu
    rw [hdc]
    norm_num
  refine ⟨_, preprocess_image_deskew_eq resamplePx bilateralPx adaptivePx
    marAngle cosSinDeg tmpdir img_path img tw, hang, ?_, ?_, ?_⟩
  · show (if (deskewOut resamplePx marAngle cosSinDeg img tw).c = 1 then
        cvtColorGRAY2BGR (deskewOut resamplePx marAngle cosSinDeg img tw)
      else deskewOut resamplePx marAngle cosSinDeg img tw).h
      = (upscale resamplePx img tw).h
    rw [if_neg hne]
    rfl
  · show (if (deskewOut resamplePx marAngle cosSinDeg img tw).c = 1 then
        cvtColorGRAY2BGR (deskewOut resamplePx marAngle cosSinDeg img tw)
      else deskewOut resamplePx marAngle cosSinDeg img tw).w
      = (upscale resamplePx img tw).w
    rw [if_neg hne]
    rfl
  · intro y x k hy hx
    show (if (deskewOut resamplePx marAngle cosSinDeg img tw).c = 1 then
        cvtColorGRAY2BGR (deskewOut resamplePx marAngle cosSinDeg img tw)
      else deskewOut resamplePx marAngle cosSinDeg img tw).px y x k
      = (upscale resamplePx img tw).px y x k
    rw [if_neg hne]
    unfold deskewOut
    rw [hang, getRotationMatrix2D_zero cosSinDeg htrig]
    exact warpAffine_id_px (upscale resamplePx img tw) y x k hy hx

/-- Witness for C6 on a blank (all-white) 1×1 image, whose inverted
grayscale is all zero and Otsu-binarised foreground is empty. -/
theorem preprocess_image_deskew_blank_witness :
    ∃ r, preprocess_image trivialResample trivialGrayPx trivialGrayPx
        (fun _ => 0) trivialCosSin "/tmp" "/tmp/doc.png" (some whitePixel)
        "deskew" (some 1) = .ok r ∧
      deskewAngle trivialResample (fun _ => 0) whitePixel (some 1) = 0 ∧
      r.written.h = (upscale trivialResample whitePixel (some 1)).h ∧
      r.written.w = (upscale trivialResample whitePixel (some 1)).w ∧
      ∀ y x k, y < (upscale trivialResample whitePixel (some 1)).h →
        x < (upscale trivialResample whitePixel (some 1)).w →
        r.written.px y x k = (upscale trivialResample whitePixel (some 1)).px y x k :=
  preprocess_image_deskew_blank trivialResample trivialGrayPx trivialGrayPx
    (fun _ => 0) trivialCosSin "/tmp" "/tmp/doc.png" whitePixel (some 1)
    rfl rfl (by decide)

end VTE
